import Mathlib

/-!
Shallow embedding of the microblog CMS content-lifecycle core.

The definitions below are translated from the TypeScript source of the
repository:

- src/lib/posts/validation.ts        (slugify and the post validators)
- src/lib/comments/validation.ts     (comment validators, comments persistence)
- src/lib/posts/persistence.ts       (posts persistence)
- src/unnamed/part_005               (PATCH /api/posts/[id]/publish route)
- src/app/api/posts/route.ts         (POST /api/posts route)
- src/app/api/posts/[id]/publish/route.ts, second document
                                     (POST and GET /api/posts/[id]/comments)
- src/app/api/comments/[id]/moderate/route.ts (PATCH moderate route)
- src/unnamed/part_015               (auth helpers: hasRole)
- src/unnamed/part_016               (database schema, posts_slug_unique index)

Modelling conventions:

- The relational store is a record of lists; each supabase query is
  translated to the corresponding filter over those lists.
- A query ending in .single() yields the row when the filter matches
  exactly one row, and an error otherwise: PostgREST reports the same
  error code PGRST116 both when zero rows and when several rows match a
  singular request.  This matters for the slug-uniqueness loop, which
  maps PGRST116 to "slug is available".
- Timestamps (new Date().toISOString()) are modelled as a Nat parameter
  passed to each handler; row ids generated by the database are passed
  in the same way.
- Authentication (requireAuth) is external per the specification; the
  handlers receive an already validated AuthUser.  The 401 path is out
  of scope.
- Transport-level storage errors are not modelled, except where a
  handler deliberately tolerates one: the category/tag link inserts of
  post creation take an explicit failure flag, because the route
  swallows that error and continues.
- JS mechanics: absent or non-string JSON body fields are modelled as
  none; the falsiness of the empty string is modelled explicitly where
  the source tests a string with if (x) or !x.  String lengths are
  counted in characters; all concrete inputs are ASCII, where the JS
  UTF-16 length, the Lean codepoint length and the regexes agree.
-/

set_option maxRecDepth 8000

namespace Microblog

/-- Roles from src/unnamed/part_015 (AuthUser) and the users schema. -/
inductive Role where
  | admin
  | editor
  | viewer
deriving Repr, DecidableEq, BEq

/-- AuthUser from src/unnamed/part_015: the identity the gate yields. -/
structure AuthUser where
  id : String
  email : String
  role : Role
deriving Repr, DecidableEq

/-- hasRole from src/unnamed/part_015: membership of the actor role in
the allowed list. -/
def hasRole (user : AuthUser) (allowedRoles : List Role) : Bool :=
  allowedRoles.contains user.role

/-- Post status enum from the posts table (part_016). -/
inductive PostStatus where
  | draft
  | published
  | archived
deriving Repr, DecidableEq, BEq

/-- Comment status enum from the comments table (part_016). -/
inductive CommentStatus where
  | pending
  | approved
  | rejected
  | spam
deriving Repr, DecidableEq, BEq

/-- Posts table row (part_016, and Post in src/lib/db/supabase.ts). -/
structure Post where
  id : String
  title : String
  content : String
  slug : String
  author_id : String
  status : PostStatus
  published_at : Option Nat
  created_at : Nat
  updated_at : Nat
deriving Repr, DecidableEq

/-- Comments table row (part_016). -/
structure Comment where
  id : String
  post_id : String
  author_id : String
  content : String
  status : CommentStatus
  parent_comment_id : Option String
  created_at : Nat
  approved_at : Option Nat
deriving Repr, DecidableEq

/-- Categories table row (part_016, Category in src/lib/db/supabase.ts). -/
structure Category where
  id : String
  name : String
  slug : String
  is_active : Bool
deriving Repr, DecidableEq

/-- Tags table row (part_016, Tag in src/lib/db/supabase.ts). -/
structure Tag where
  id : String
  name : String
  slug : String
deriving Repr, DecidableEq

/-- The relational store: one list per table.  post_categories and
post_tags are the two link tables, as (post_id, category_id) and
(post_id, tag_id) pairs. -/
structure Store where
  posts : List Post
  comments : List Comment
  categories : List Category
  tags : List Tag
  post_categories : List (String × String)
  post_tags : List (String × String)
deriving Repr, DecidableEq

/-- Result shape of the validators in src/lib/posts/validation.ts and
src/lib/comments/validation.ts. -/
structure ValidationResult where
  valid : Bool
  error : Option String
deriving Repr, DecidableEq

/-- Error responses produced by the helpers of src/unnamed/part_015:
forbidden 403, notFound 404, badRequest 400, conflict 409, plus the
anonymous 500 responses built inline in the routes. -/
inductive ApiError where
  | forbidden (msg : String)
  | notFound (msg : String)
  | badRequest (msg : String)
  | conflict (msg : String)
  | serverError (msg : String)
deriving Repr, DecidableEq

deriving instance DecidableEq for Except

/-- ASCII whitespace, the characters the regex class s and the JS trim
match in the ASCII range. -/
def wsChar (c : Char) : Bool :=
  c == ' ' || c == '\t' || c == '\n' || c == '\r'

/-- Strip leading and trailing whitespace from a character list: the JS
String.prototype.trim on ASCII input. -/
def trimChars (l : List Char) : List Char :=
  ((l.dropWhile wsChar).reverse.dropWhile wsChar).reverse

/-- The JS s.trim() as a string transform. -/
def trimString (sv : String) : String :=
  String.mk (trimChars sv.toList)

/-- The JS s.trim().length, counted in characters. -/
def trimmedLength (sv : String) : Nat :=
  (trimChars sv.toList).length

/-- ASCII lowercasing of one character: the JS toLowerCase on ASCII
input. -/
def lowerChar (c : Char) : Char :=
  if 'A' ≤ c && c ≤ 'Z' then Char.ofNat (c.toNat + 32) else c

/-- True when a word character in the sense of the regex class w:
ASCII letters, digits and the underscore. -/
def isWordChar (c : Char) : Bool :=
  c.isAlphanum || c == '_'

/-- Collapse every run of repeated hyphens to a single hyphen,
modelling replace of the pattern -+ with - in slugify. -/
def collapseHyphens : List Char → List Char
  | [] => []
  | [c] => [c]
  | a :: b :: rest =>
    if a == '-' && b == '-' then collapseHyphens (b :: rest)
    else a :: collapseHyphens (b :: rest)

/-- slugify from src/lib/posts/validation.ts: lowercase, trim, drop
characters outside word/whitespace/hyphen, turn whitespace runs into a
hyphen, collapse hyphen runs, strip outer hyphens.  Mapping every
whitespace character to a hyphen before collapsing hyphen runs yields
the same result as first collapsing whitespace runs, since both turn
each maximal mixed run of whitespace and hyphens into one hyphen. -/
def slugify (title : String) : String :=
  let l1 := trimChars (title.toList.map lowerChar)
  let l2 := l1.filter (fun c => isWordChar c || wsChar c || c == '-')
  let l3 := l2.map (fun c => if wsChar c then '-' else c)
  let l4 := collapseHyphens l3
  let l5 := ((l4.dropWhile (fun c => c == '-')).reverse.dropWhile
      (fun c => c == '-')).reverse
  String.mk l5

/-- validateTitle from src/lib/posts/validation.ts.  A missing or
non-string body field is none; the empty string is falsy in JS and hits
the required branch. -/
def validateTitle (title : Option String) : ValidationResult :=
  match title with
  | none => ⟨false, some "Title is required"⟩
  | some t =>
    if t == "" then ⟨false, some "Title is required"⟩
    else if t.length < 5 then ⟨false, some "Title must be at least 5 characters"⟩
    else if t.length > 200 then ⟨false, some "Title must be at most 200 characters"⟩
    else ⟨true, none⟩

/-- validateContent from src/lib/posts/validation.ts. -/
def validateContent (content : Option String) : ValidationResult :=
  match content with
  | none => ⟨false, some "Content is required"⟩
  | some c =>
    if c == "" then ⟨false, some "Content is required"⟩
    else if trimmedLength c == 0 then ⟨false, some "Content cannot be empty"⟩
    else ⟨true, none⟩

/-- validateContentForPublish from src/lib/posts/validation.ts: the
publish-eligibility check, trimmed length at least 100. -/
def validateContentForPublish (content : String) : ValidationResult :=
  if content == "" then ⟨false, some "Content is required"⟩
  else if trimmedLength content < 100 then
    ⟨false, some "Content must be at least 100 characters for publishing"⟩
  else ⟨true, none⟩

/-- True when the character is an ASCII hex digit, upper or lower case:
the character class of the uuid regex with the i flag. -/
def isHexDigit (c : Char) : Bool :=
  c.isDigit || ('a' ≤ c && c ≤ 'f') || ('A' ≤ c && c ≤ 'F')

/-- The uuid regex shared by the validators: 8-4-4-4-12 hex groups
separated by hyphens, case-insensitive, anchored at both ends. -/
def isUuid (sv : String) : Bool :=
  let l := sv.toList
  l.length == 36 && (List.range 36).all (fun i =>
    if i == 8 || i == 13 || i == 18 || i == 23 then l.getD i ' ' == '-'
    else isHexDigit (l.getD i ' '))

/-- validateOptionalCategories from src/lib/posts/validation.ts: absent
is fine, an empty array is fine, and otherwise every entry must look
like a uuid.  In JS the empty array is truthy, so some [] reaches the
empty-array branch. -/
def validateOptionalCategories (categories : Option (List String)) : ValidationResult :=
  match categories with
  | none => ⟨true, none⟩
  | some l =>
    if l.isEmpty then ⟨true, none⟩
    else if l.all isUuid then ⟨true, none⟩
    else ⟨false, some "Invalid category UUID format"⟩

/-- validateTagIds from src/lib/posts/validation.ts. -/
def validateTagIds (tagIds : Option (List String)) : ValidationResult :=
  match tagIds with
  | none => ⟨true, none⟩
  | some l =>
    if l.isEmpty then ⟨true, none⟩
    else if l.all isUuid then ⟨true, none⟩
    else ⟨false, some "Invalid tag UUID format"⟩

/-- validateCommentContent from src/lib/comments/validation.ts. -/
def validateCommentContent (content : Option String) : ValidationResult :=
  match content with
  | none => ⟨false, some "Comment content is required"⟩
  | some c =>
    if c == "" then ⟨false, some "Comment content is required"⟩
    else if trimmedLength c == 0 then ⟨false, some "Comment content cannot be empty"⟩
    else if c.length > 5000 then
      ⟨false, some "Comment content must be 5000 characters or less"⟩
    else ⟨true, none⟩

/-- validateParentCommentId from src/lib/comments/validation.ts: absent
or empty (falsy) is valid because the parent is optional; otherwise the
value must match the uuid regex. -/
def validateParentCommentId (parentId : Option String) : ValidationResult :=
  match parentId with
  | none => ⟨true, none⟩
  | some p =>
    if p == "" then ⟨true, none⟩
    else if isUuid p then ⟨true, none⟩
    else ⟨false, some "Invalid parent comment ID format"⟩

/-- Semantics of a supabase query ending in .single(): the row when the
filter matched exactly one row, none otherwise.  PostgREST answers a
singular request with error code PGRST116 both for zero and for several
matching rows, so both collapse to none here. -/
def singleRow {α : Type} : List α → Option α
  | [a] => some a
  | _ => none

/-- getPostById from src/lib/posts/persistence.ts: select * from posts
where id = postId, single. -/
def getPostById (s : Store) (postId : String) : Option Post :=
  singleRow (s.posts.filter (fun p => p.id == postId))

/-- getPostBySlug from src/lib/posts/persistence.ts: select id, slug,
status from posts where slug = slug, single.  No status filter: drafts
and archived posts are matched too. -/
def getPostBySlug (s : Store) (slug : String) : Option Post :=
  singleRow (s.posts.filter (fun p => p.slug == slug))

/-- The row update written by publishPost in
src/lib/posts/persistence.ts: status published, the resolved slug, and
fresh published_at and updated_at; every other column is untouched. -/
def applyPublish (p : Post) (slug : String) (now : Nat) : Post :=
  { p with
    status := PostStatus.published
    slug := slug
    published_at := some now
    updated_at := now }

/-- publishPost from src/lib/posts/persistence.ts: update posts set ...
where id = postId, select single.  The database enforces the partial
unique index posts_slug_unique (part_016: unique slug among rows with
status published), so the update errors when another published row
already holds the slug; that error surfaces as none, which the route
maps to a 500 response. -/
def publishPost (s : Store) (postId slug : String) (now : Nat) : Option (Post × Store) :=
  match getPostById s postId with
  | none => none
  | some p =>
    if s.posts.any (fun q =>
        q.id != postId && q.status == PostStatus.published && q.slug == slug) then
      none
    else
      some (applyPublish p slug now,
        { s with posts := s.posts.map (fun q =>
            if q.id == postId then applyPublish q slug now else q) })

/-- getPublishedPost from the comments persistence layer: select id,
status from posts where id = postId, single.  Despite the name there is
no status filter; the routes re-check status afterwards. -/
def getPublishedPost (s : Store) (postId : String) : Option Post :=
  singleRow (s.posts.filter (fun p => p.id == postId))

/-- getApprovedComment from the comments persistence layer: select id,
status from comments where id = commentId and post_id = postId, single.
Despite the name there is no status filter and no top-level filter; the
route checks status afterwards, and nothing checks parent_comment_id. -/
def getApprovedComment (s : Store) (commentId postId : String) : Option Comment :=
  singleRow (s.comments.filter (fun c => c.id == commentId && c.post_id == postId))

/-- getCommentById from the comments persistence layer. -/
def getCommentById (s : Store) (commentId : String) : Option Comment :=
  singleRow (s.comments.filter (fun c => c.id == commentId))

/-- getPostForOwnershipCheck from the comments persistence layer:
select id, author_id from posts where id = postId, single. -/
def getPostForOwnershipCheck (s : Store) (postId : String) : Option Post :=
  singleRow (s.posts.filter (fun p => p.id == postId))

/-- Insertion step of insertion sort with a boolean comparison. -/
def insertLe {α : Type} (le : α → α → Bool) (a : α) : List α → List α
  | [] => [a]
  | b :: bs => if le a b then a :: b :: bs else b :: insertLe le a bs

/-- Insertion sort with a boolean comparison: the model of an order-by
clause on a query.  Any correct stable sort models the database
ordering; insertion sort keeps the proofs elementary. -/
def sortByLe {α : Type} (le : α → α → Bool) : List α → List α
  | [] => []
  | x :: xs => insertLe le x (sortByLe le xs)

/-- Ascending created_at comparison: order by created_at asc. -/
def createdAsc (a b : Comment) : Bool :=
  decide (a.created_at ≤ b.created_at)

/-- Descending created_at comparison: order by created_at desc. -/
def createdDesc (a b : Comment) : Bool :=
  decide (b.created_at ≤ a.created_at)

/-- countApprovedTopLevelComments from the comments persistence layer:
count comments where post_id, status approved, parent null. -/
def countApprovedTopLevelComments (s : Store) (postId : String) : Nat :=
  (s.comments.filter (fun c =>
    c.post_id == postId && c.status == CommentStatus.approved
      && c.parent_comment_id.isNone)).length

/-- listApprovedTopLevelComments from the comments persistence layer:
the same filter, ordered by created_at in the requested direction, with
range offset to offset + limit - 1 inclusive. -/
def listApprovedTopLevelComments (s : Store) (postId : String)
    (offset limit : Nat) (asc : Bool) : List Comment :=
  (((sortByLe (if asc then createdAsc else createdDesc)
      (s.comments.filter (fun c =>
        c.post_id == postId && c.status == CommentStatus.approved
          && c.parent_comment_id.isNone))).drop offset).take limit)

/-- getApprovedReplies from the comments persistence layer: approved
comments of the post whose parent is the given comment, always ordered
by created_at ascending. -/
def getApprovedReplies (s : Store) (postId parentCommentId : String) : List Comment :=
  sortByLe createdAsc (s.comments.filter (fun c =>
    c.post_id == postId && c.parent_comment_id == some parentCommentId
      && c.status == CommentStatus.approved))

/-- The row update written by moderateComment in the comments
persistence layer: the target status, plus approved_at = now exactly
when the target is approved; otherwise approved_at is not part of the
update and keeps its previous value. -/
def applyModerate (c : Comment) (target : CommentStatus) (now : Nat) : Comment :=
  if target == CommentStatus.approved then
    { c with status := target, approved_at := some now }
  else
    { c with status := target }

/-- moderateComment from the comments persistence layer: update
comments set ... where id = commentId, select single. -/
def moderateComment (s : Store) (commentId : String) (target : CommentStatus)
    (now : Nat) : Option (Comment × Store) :=
  match getCommentById s commentId with
  | none => none
  | some c =>
    some (applyModerate c target now,
      { s with comments := s.comments.map (fun q =>
          if q.id == commentId then applyModerate q target now else q) })

/-- The slug variant attempted at step k of the uniqueness loop of the
publish route: the base slug for k = 0, base-k afterwards. -/
def slugVariant (base : String) (k : Nat) : String :=
  if k == 0 then base else base ++ "-" ++ toString k

/-- One lookup of the uniqueness loop in src/unnamed/part_005: the slug
is taken when getPostBySlug finds a single row belonging to a different
post.  A PGRST116 error (zero rows, or several rows) is treated by the
route as slug available, and a row for the post being published itself
does not count as a collision. -/
def slugTaken (s : Store) (postId slug : String) : Bool :=
  match getPostBySlug s slug with
  | none => false
  | some existing => existing.id != postId

/-- The while loop of step 8 of src/unnamed/part_005, as fuel
recursion: k is the slugAttempt counter, fuel is maxAttempts - k.  The
loop exits with none exactly when slugAttempt reaches maxAttempts with
every attempted variant taken. -/
def resolveSlugAux (s : Store) (postId base : String) : Nat → Nat → Option String
  | 0, _ => none
  | fuel + 1, k =>
    if slugTaken s postId (slugVariant base k) then
      resolveSlugAux s postId base fuel (k + 1)
    else
      some (slugVariant base k)

/-- Slug resolution of the publish route: up to maxAttempts = 10
attempts starting at the base slug. -/
def resolveSlug (s : Store) (postId base : String) : Option String :=
  resolveSlugAux s postId base 10 0

/-- PATCH of src/unnamed/part_005 (publish route), after requireAuth:
role gate, fetch, draft check, ownership, content length, category
presence, slug resolution, update.  The pair carries the store so that
error paths demonstrably leave it unchanged. -/
def publishRoute (s : Store) (actor : AuthUser) (postId : String) (now : Nat) :
    Except ApiError Post × Store :=
  if !(hasRole actor [Role.editor, Role.admin]) then
    (Except.error (ApiError.forbidden "Only editors and admins can publish posts"), s)
  else
    match getPostById s postId with
    | none => (Except.error (ApiError.notFound "Post not found"), s)
    | some post =>
      if post.status != PostStatus.draft then
        (Except.error (ApiError.conflict "Post is not in draft status"), s)
      else if actor.role == Role.editor && post.author_id != actor.id then
        (Except.error (ApiError.forbidden "Editors can only publish their own posts"), s)
      else if (validateContentForPublish post.content).valid == false then
        (Except.error (ApiError.badRequest
          ((validateContentForPublish post.content).error.getD
            "Invalid content for publishing")), s)
      else if (s.post_categories.filter (fun l => l.1 == postId)).isEmpty then
        (Except.error (ApiError.badRequest
          "Post must have at least one category to publish"), s)
      else
        match resolveSlug s postId (slugify post.title) with
        | none =>
          (Except.error (ApiError.conflict
            "Could not generate unique slug for this post"), s)
        | some slug =>
          match publishPost s postId slug now with
          | none => (Except.error (ApiError.serverError "Failed to publish post"), s)
          | some (p, s1) => (Except.ok p, s1)

/-- Condition of step 6b and 7b of src/app/api/posts/route.ts: ids were
supplied and the select-in query returns fewer rows than ids, so some
id references no existing row. -/
def referencesMissing (rows : List String) (ids : Option (List String)) : Bool :=
  match ids with
  | none => false
  | some l =>
    !l.isEmpty && (rows.filter (fun r => l.contains r)).length != l.length

/-- The draft row inserted by createDraftPost in
src/lib/posts/persistence.ts: status draft, published_at null, slug
computed by slugify with no uniqueness check. -/
def mkDraftPost (actor : AuthUser) (title content : Option String)
    (newId : String) (now : Nat) : Post :=
  { id := newId
    title := title.getD ""
    content := content.getD ""
    slug := slugify (title.getD "")
    author_id := actor.id
    status := PostStatus.draft
    published_at := none
    created_at := now
    updated_at := now }

/-- Step 10 of src/app/api/posts/route.ts: insert the category link
rows when ids were supplied; when the insert errors the route logs and
continues, leaving the store without the links. -/
def applyCategoryLinks (s : Store) (postId : String) (ids : List String)
    (fails : Bool) : Store :=
  if ids.isEmpty then s
  else if fails then s
  else { s with post_categories := s.post_categories ++ ids.map (fun i => (postId, i)) }

/-- Step 11 of src/app/api/posts/route.ts: same for tag links. -/
def applyTagLinks (s : Store) (postId : String) (ids : List String)
    (fails : Bool) : Store :=
  if ids.isEmpty then s
  else if fails then s
  else { s with post_tags := s.post_tags ++ ids.map (fun i => (postId, i)) }

/-- POST of src/app/api/posts/route.ts (create draft post), after
requireAuth.  catLinkFails and tagLinkFails model a storage error on
the respective link insert, which the route tolerates.  The success
payload carries the post plus the echoed category_ids and tag_ids. -/
def createPostRoute (s : Store) (actor : AuthUser) (title content : Option String)
    (category_ids tag_ids : Option (List String)) (newId : String) (now : Nat)
    (catLinkFails tagLinkFails : Bool) :
    Except ApiError (Post × List String × List String) × Store :=
  if !(hasRole actor [Role.editor, Role.admin]) then
    (Except.error (ApiError.forbidden "Only editors and admins can create posts"), s)
  else if (validateTitle title).valid == false then
    (Except.error (ApiError.badRequest ((validateTitle title).error.getD "Invalid title")), s)
  else if (validateContent content).valid == false then
    (Except.error (ApiError.badRequest
      ((validateContent content).error.getD "Invalid content")), s)
  else if (validateOptionalCategories category_ids).valid == false then
    (Except.error (ApiError.badRequest
      ((validateOptionalCategories category_ids).error.getD "Invalid category_ids")), s)
  else if referencesMissing (s.categories.map (fun c => c.id)) category_ids then
    (Except.error (ApiError.badRequest
      "One or more category_ids reference non-existent categories"), s)
  else if (validateTagIds tag_ids).valid == false then
    (Except.error (ApiError.badRequest
      ((validateTagIds tag_ids).error.getD "Invalid tag_ids")), s)
  else if referencesMissing (s.tags.map (fun t => t.id)) tag_ids then
    (Except.error (ApiError.badRequest
      "One or more tag_ids reference non-existent tags"), s)
  else
    (Except.ok (mkDraftPost actor title content newId now,
        category_ids.getD [], tag_ids.getD []),
      applyTagLinks
        (applyCategoryLinks
          { s with posts := s.posts ++ [mkDraftPost actor title content newId now] }
          newId (category_ids.getD []) catLinkFails)
        newId (tag_ids.getD []) tagLinkFails)

/-- JS truthiness of the parent_comment_id body field, used both by the
if guard of step 6 and by the insert of step 7 of the submit route: an
absent field and the empty string behave alike. -/
def truthyParent : Option String → Option String
  | none => none
  | some p => if p == "" then none else some p

/-- The pending row inserted by createPendingComment in the comments
persistence layer: trimmed content, status pending, approved_at not
set. -/
def mkPendingComment (actor : AuthUser) (postId : String)
    (content parent : Option String) (newId : String) (now : Nat) : Comment :=
  { id := newId
    post_id := postId
    author_id := actor.id
    content := trimString (content.getD "")
    status := CommentStatus.pending
    parent_comment_id := parent
    created_at := now
    approved_at := none }

/-- POST of the comments route (second document of
src/app/api/posts/[id]/publish/route.ts), after requireAuth: content
validation, parent id format validation, published-post check, parent
existence and approval check, insert. -/
def submitCommentRoute (s : Store) (actor : AuthUser) (postId : String)
    (content parent_comment_id : Option String) (newId : String) (now : Nat) :
    Except ApiError Comment × Store :=
  if (validateCommentContent content).valid == false then
    (Except.error (ApiError.badRequest
      ((validateCommentContent content).error.getD "Invalid content")), s)
  else if (validateParentCommentId parent_comment_id).valid == false then
    (Except.error (ApiError.badRequest
      ((validateParentCommentId parent_comment_id).error.getD
        "Invalid parent comment ID")), s)
  else
    match getPublishedPost s postId with
    | none => (Except.error (ApiError.notFound "Post not found"), s)
    | some post =>
      if post.status != PostStatus.published then
        (Except.error (ApiError.notFound "Post not found"), s)
      else
        match truthyParent parent_comment_id with
        | some pid =>
          match getApprovedComment s pid postId with
          | none => (Except.error (ApiError.notFound "Parent comment not found"), s)
          | some parentComment =>
            if parentComment.status != CommentStatus.approved then
              (Except.error (ApiError.notFound "Parent comment not found"), s)
            else
              (Except.ok (mkPendingComment actor postId content
                  (truthyParent parent_comment_id) newId now),
                { s with comments := s.comments
                    ++ [mkPendingComment actor postId content
                      (truthyParent parent_comment_id) newId now] })
        | none =>
          (Except.ok (mkPendingComment actor postId content
              (truthyParent parent_comment_id) newId now),
            { s with comments := s.comments
                ++ [mkPendingComment actor postId content
                  (truthyParent parent_comment_id) newId now] })

/-- Page parameter parsing of the comments GET route: a parsed positive
integer is used, anything else falls back to 1. -/
def parsePage (pp : Option Int) : Nat :=
  match pp with
  | some p => if 0 < p then p.toNat else 1
  | none => 1

/-- Limit parameter parsing of the comments GET route: a parsed value
in 1..100 is used, a value above 100 is capped at 100, anything else
falls back to 20. -/
def parseLimit (lp : Option Int) : Nat :=
  match lp with
  | some l => if 0 < l ∧ l ≤ 100 then l.toNat else if 100 < l then 100 else 20
  | none => 20

/-- Sort parameter of the comments GET route: true means newest first
(descending); only the literal value newest selects it, anything else
keeps the oldest default. -/
def parseSortNewest (sp : Option String) : Bool :=
  sp == some "newest"

/-- Response shape of the comments GET route: the comments each paired
with their reply list, plus the pagination block. -/
structure CommentsPage where
  data : List (Comment × List Comment)
  page : Nat
  limit : Nat
  total : Nat
  total_pages : Nat
deriving Repr, DecidableEq

/-- Steps 3 to 5 of the comments GET route: fetch the ordered page of
approved top-level comments, pair each with its approved replies, and
build the pagination block, where a zero total reports zero pages. -/
def buildCommentsPage (s : Store) (postId : String) (page limit : Nat)
    (newest : Bool) : CommentsPage :=
  { data := (listApprovedTopLevelComments s postId ((page - 1) * limit) limit
        (!newest)).map (fun c => (c, getApprovedReplies s postId c.id))
    page := page
    limit := limit
    total := countApprovedTopLevelComments s postId
    total_pages :=
      if countApprovedTopLevelComments s postId == 0 then 0
      else (countApprovedTopLevelComments s postId + limit - 1) / limit }

/-- GET of the comments route (second document of
src/app/api/posts/[id]/publish/route.ts): public listing of approved
comments with replies for a published post. -/
def listCommentsRoute (s : Store) (postId : String) (pp lp : Option Int)
    (sp : Option String) : Except ApiError CommentsPage :=
  match getPublishedPost s postId with
  | none => Except.error (ApiError.notFound "Post not found")
  | some post =>
    if post.status != PostStatus.published then
      Except.error (ApiError.notFound "Post not found")
    else
      Except.ok (buildCommentsPage s postId (parsePage pp) (parseLimit lp)
        (parseSortNewest sp))

/-- Allowed moderation targets of the moderate route. -/
def validModerationStatuses : List String :=
  ["approved", "rejected", "spam"]

/-- The status enum value for a validated target string. -/
def targetStatus (st : String) : CommentStatus :=
  if st == "approved" then CommentStatus.approved
  else if st == "rejected" then CommentStatus.rejected
  else CommentStatus.spam

/-- True when the body carries a valid target status; a missing field,
the empty string and any value outside the enum all fail the step 2
validation of the moderate route. -/
def validTargetBody : Option String → Bool
  | none => false
  | some st => validModerationStatuses.contains st

/-- PATCH of src/app/api/comments/[id]/moderate/route.ts, after
requireAuth: body validation, comment fetch, pending check, post fetch
for ownership, role and ownership checks, update.  The success value is
the updated comment row; the response shaping asymmetry between
approved and rejected outcomes drops fields but adds no information. -/
def moderateRoute (s : Store) (actor : AuthUser) (commentId : String)
    (status : Option String) (now : Nat) : Except ApiError Comment × Store :=
  match status with
  | none => (Except.error (ApiError.badRequest "Status is required"), s)
  | some st =>
    if st == "" then (Except.error (ApiError.badRequest "Status is required"), s)
    else if !(validModerationStatuses.contains st) then
      (Except.error (ApiError.badRequest
        "Invalid status. Must be one of: approved, rejected, spam"), s)
    else
      match getCommentById s commentId with
      | none => (Except.error (ApiError.notFound "Comment not found"), s)
      | some comment =>
        if comment.status != CommentStatus.pending then
          (Except.error (ApiError.conflict "Comment already moderated"), s)
        else
          match getPostForOwnershipCheck s comment.post_id with
          | none => (Except.error (ApiError.serverError "Failed to fetch post"), s)
          | some post =>
            if !(hasRole actor [Role.admin]) && !(hasRole actor [Role.editor]) then
              (Except.error (ApiError.forbidden
                "Only admins and editors can moderate comments"), s)
            else if hasRole actor [Role.editor] && !(hasRole actor [Role.admin])
                && post.author_id != actor.id then
              (Except.error (ApiError.forbidden
                "Editors can only moderate comments on their own posts"), s)
            else
              match moderateComment s commentId (targetStatus st) now with
              | none => (Except.error (ApiError.serverError "Failed to update comment"), s)
              | some (c1, s1) => (Except.ok c1, s1)

/-- True when the result is a success. -/
def isOkResult {α : Type} : Except ApiError α → Bool
  | Except.ok _ => true
  | Except.error _ => false

/-- True when the result is a 409 conflict. -/
def isConflictResult {α : Type} : Except ApiError α → Bool
  | Except.error (ApiError.conflict _) => true
  | _ => false

/-- True when the result is a 403 forbidden. -/
def isForbiddenResult {α : Type} : Except ApiError α → Bool
  | Except.error (ApiError.forbidden _) => true
  | _ => false

/-- True when the result is a 404 not found. -/
def isNotFoundResult {α : Type} : Except ApiError α → Bool
  | Except.error (ApiError.notFound _) => true
  | _ => false

/-- True when the result is a 400 validation failure. -/
def isBadRequestResult {α : Type} : Except ApiError α → Bool
  | Except.error (ApiError.badRequest _) => true
  | _ => false

/-- True when the result is a 500 response. -/
def isServerErrorResult {α : Type} : Except ApiError α → Bool
  | Except.error (ApiError.serverError _) => true
  | _ => false

/-! Concrete fixtures used by witnesses and counterexamples. -/

/-- An admin actor. -/
def adminU : AuthUser :=
  { id := "admin1", email := "admin@example.com", role := Role.admin }

/-- An editor actor who authored the fixture posts. -/
def editorU : AuthUser :=
  { id := "ed1", email := "ed1@example.com", role := Role.editor }

/-- A second editor who authored none of the fixture posts. -/
def editor2U : AuthUser :=
  { id := "ed2", email := "ed2@example.com", role := Role.editor }

/-- A viewer actor. -/
def viewerU : AuthUser :=
  { id := "v1", email := "v1@example.com", role := Role.viewer }

/-- A 120 character body, long enough for publish eligibility. -/
def longContent : String := String.mk (List.replicate 120 'a')

/-- Fixture category id, in uuid shape. -/
def catUuid : String := "00000000-0000-0000-0000-00000000c001"

/-- A uuid-shaped id referencing no stored category. -/
def badCatUuid : String := "00000000-0000-0000-0000-00000000dead"

/-- Fixture comment ids, in uuid shape. -/
def uuidC1 : String := "00000000-0000-0000-0000-000000000001"

/-- Second fixture comment id. -/
def uuidC2 : String := "00000000-0000-0000-0000-000000000002"

/-- Third fixture comment id. -/
def uuidC3 : String := "00000000-0000-0000-0000-000000000003"

/-- Fourth fixture comment id. -/
def uuidC4 : String := "00000000-0000-0000-0000-000000000004"

/-- Fifth fixture comment id. -/
def uuidC5 : String := "00000000-0000-0000-0000-000000000005"

/-- Fixture category row. -/
def cat1 : Category :=
  { id := catUuid, name := "Tech", slug := "tech", is_active := true }

/-- Fixture draft post by editorU. -/
def pDraft : Post :=
  { id := "p1", title := "Hello World", content := longContent
    slug := "hello-world", author_id := "ed1", status := PostStatus.draft
    published_at := none, created_at := 0, updated_at := 0 }

/-- Fixture published post by editorU, carrying the fixture comments. -/
def pPub : Post :=
  { id := "p2", title := "Other Post", content := longContent
    slug := "other-post", author_id := "ed1", status := PostStatus.published
    published_at := some 1, created_at := 0, updated_at := 1 }

/-- Fixture published post with no comments at all. -/
def pPub2 : Post :=
  { id := "p3", title := "Third Post", content := longContent
    slug := "third-post", author_id := "ed1", status := PostStatus.published
    published_at := some 2, created_at := 0, updated_at := 2 }

/-- Approved top-level fixture comment on pPub. -/
def cApproved : Comment :=
  { id := uuidC1, post_id := "p2", author_id := "v1", content := "Nice post"
    status := CommentStatus.approved, parent_comment_id := none
    created_at := 10, approved_at := some 11 }

/-- Approved reply to cApproved, stored before the older reply so the
reply ordering is visible. -/
def cReply : Comment :=
  { id := uuidC2, post_id := "p2", author_id := "v1", content := "Reply"
    status := CommentStatus.approved, parent_comment_id := some uuidC1
    created_at := 12, approved_at := some 13 }

/-- Older approved reply to cApproved, stored after cReply. -/
def cReplyB : Comment :=
  { id := uuidC5, post_id := "p2", author_id := "v1", content := "Earlier reply"
    status := CommentStatus.approved, parent_comment_id := some uuidC1
    created_at := 11, approved_at := some 13 }

/-- Pending fixture comment on pPub. -/
def cPending : Comment :=
  { id := uuidC3, post_id := "p2", author_id := "v1", content := "Pending"
    status := CommentStatus.pending, parent_comment_id := none
    created_at := 14, approved_at := none }

/-- Rejected fixture comment on pPub. -/
def cRejected : Comment :=
  { id := uuidC4, post_id := "p2", author_id := "v1", content := "Bad"
    status := CommentStatus.rejected, parent_comment_id := none
    created_at := 15, approved_at := none }

/-- The shared fixture store. -/
def baseStore : Store :=
  { posts := [pDraft, pPub, pPub2]
    comments := [cApproved, cReply, cReplyB, cPending, cRejected]
    categories := [cat1]
    tags := []
    post_categories := [("p1", catUuid), ("p2", catUuid)]
    post_tags := [] }

/-- Store for the slug claim: the draft being published and an already
published post both hold the slug hello-world, which the partial unique
index permits while only one of them is published. -/
def slugStore : Store :=
  { posts :=
      [{ id := "p1", title := "Hello World", content := longContent
         slug := "hello-world", author_id := "ed1", status := PostStatus.draft
         published_at := none, created_at := 3, updated_at := 3 },
       { id := "p2", title := "Hello World", content := longContent
         slug := "hello-world", author_id := "ed1", status := PostStatus.published
         published_at := some 1, created_at := 0, updated_at := 1 }]
    comments := []
    categories := [cat1]
    tags := []
    post_categories := [("p1", catUuid)]
    post_tags := [] }

/-- The fixture store after the witness publish of pDraft. -/
def baseStoreAfterPublish : Store :=
  { baseStore with posts := baseStore.posts.map (fun q =>
      if q.id == "p1" then applyPublish q "hello-world" 7 else q) }

/-- The fixture pending comment after the witness approval. -/
def cApprovedNow : Comment :=
  { cPending with status := CommentStatus.approved, approved_at := some 40 }

/-- The fixture store after the witness approval. -/
def baseStoreAfterApprove : Store :=
  { baseStore with comments := baseStore.comments.map (fun q =>
      if q.id == uuidC3 then applyModerate q CommentStatus.approved 40 else q) }

/-- The fixture store after the witness reply submission. -/
def c2StoreAfterReply : Store :=
  { baseStore with comments := baseStore.comments
      ++ [mkPendingComment viewerU "p2" (some "hi") (some uuidC1) "newc2" 31] }

/-- The fixture store after the witness creation with a failing
category link insert. -/
def c3StoreAfterCreate : Store :=
  { baseStore with posts := baseStore.posts
      ++ [mkDraftPost editorU (some "My New Post") (some "Body text") "pnew2" 6] }

/-! Generic facts about the insertion sort used for order-by clauses. -/

/-- Membership in the insertion step. -/
theorem mem_insertLe {α : Type} (le : α → α → Bool) (a x : α) :
    ∀ l : List α, x ∈ insertLe le a l ↔ x = a ∨ x ∈ l := by
  intro l
  induction l with
  | nil => simp [insertLe]
  | cons b bs ih =>
    simp only [insertLe]
    by_cases h : le a b = true
    · rw [if_pos h]
      simp [List.mem_cons]
    · rw [if_neg h]
      simp only [List.mem_cons, ih]
      tauto

/-- The insertion step preserves pairwise sortedness for a total and
transitive boolean comparison. -/
theorem pairwise_insertLe {α : Type} {le : α → α → Bool}
    (total : ∀ a b, le a b = true ∨ le b a = true)
    (tr : ∀ a b c, le a b = true → le b c = true → le a c = true)
    (a : α) :
    ∀ l : List α, l.Pairwise (fun x y => le x y = true) →
      (insertLe le a l).Pairwise (fun x y => le x y = true) := by
  intro l
  induction l with
  | nil =>
    intro _
    simp [insertLe]
  | cons b bs ih =>
    intro hp
    rw [List.pairwise_cons] at hp
    obtain ⟨hb, hbs⟩ := hp
    simp only [insertLe]
    by_cases hab : le a b = true
    · rw [if_pos hab]
      refine List.Pairwise.cons ?_ (List.Pairwise.cons hb hbs)
      intro x hx
      rcases List.mem_cons.mp hx with rfl | hx
      · exact hab
      · exact tr a b x hab (hb x hx)
    · rw [if_neg hab]
      have hba : le b a = true := by
        rcases total a b with h | h
        · exact absurd h hab
        · exact h
      refine List.Pairwise.cons ?_ (ih hbs)
      intro x hx
      rcases (mem_insertLe le a x bs).mp hx with rfl | hx
      · exact hba
      · exact hb x hx

/-- Insertion sort produces a pairwise sorted list for a total and
transitive boolean comparison. -/
theorem pairwise_sortByLe {α : Type} {le : α → α → Bool}
    (total : ∀ a b, le a b = true ∨ le b a = true)
    (tr : ∀ a b c, le a b = true → le b c = true → le a c = true) :
    ∀ l : List α, (sortByLe le l).Pairwise (fun x y => le x y = true) := by
  intro l
  induction l with
  | nil => simp [sortByLe]
  | cons x xs ih => exact pairwise_insertLe total tr x _ ih

/-- The ascending created_at comparison is total. -/
theorem createdAsc_total (a b : Comment) :
    createdAsc a b = true ∨ createdAsc b a = true := by
  unfold createdAsc
  rcases Nat.le_total a.created_at b.created_at with h | h
  · exact Or.inl (decide_eq_true h)
  · exact Or.inr (decide_eq_true h)

/-- The ascending created_at comparison is transitive. -/
theorem createdAsc_trans (a b c : Comment) :
    createdAsc a b = true → createdAsc b c = true → createdAsc a c = true := by
  intro h1 h2
  exact decide_eq_true (Nat.le_trans (of_decide_eq_true h1) (of_decide_eq_true h2))

/-- Reply lists are always pairwise ordered oldest-first. -/
theorem getApprovedReplies_sorted (s : Store) (postId parentId : String) :
    (getApprovedReplies s postId parentId).Pairwise
      (fun a b => a.created_at ≤ b.created_at) := by
  unfold getApprovedReplies
  exact (pairwise_sortByLe createdAsc_total createdAsc_trans _).imp
    (fun h => of_decide_eq_true h)

/-- A handler result pairing an error with a store never equals a
success pairing. -/
theorem err_ne_ok {α β : Type} {e : ApiError} {a : α} {x y : β}
    (h : ((Except.error e : Except ApiError α), x) = (Except.ok a, y)) : False :=
  Except.noConfusion (congrArg Prod.fst h)

/-- Success inversion for the publish route: a successful publish went
through every guard, found a draft post, resolved a slug, and wrote
exactly the publishPost update. -/
theorem publishRoute_ok {s : Store} {actor : AuthUser} {postId : String} {now : Nat}
    {p1 : Post} {s1 : Store}
    (h : publishRoute s actor postId now = (Except.ok p1, s1)) :
    ∃ post slug, getPostById s postId = some post
      ∧ post.status = PostStatus.draft
      ∧ resolveSlug s postId (slugify post.title) = some slug
      ∧ p1 = applyPublish post slug now
      ∧ s1 = { s with posts := s.posts.map (fun q =>
          if q.id == postId then applyPublish q slug now else q) } := by
  unfold publishRoute at h
  split at h
  · exact (err_ne_ok h).elim
  split at h
  · exact (err_ne_ok h).elim
  next post hpost =>
  split at h
  · exact (err_ne_ok h).elim
  next g2 =>
  split at h
  · exact (err_ne_ok h).elim
  split at h
  · exact (err_ne_ok h).elim
  split at h
  · exact (err_ne_ok h).elim
  split at h
  · exact (err_ne_ok h).elim
  next slug hslug =>
  split at h
  · exact (err_ne_ok h).elim
  next p2 s2 hpub =>
  unfold publishPost at hpub
  rw [hpost] at hpub
  split at hpub
  · exact Option.noConfusion hpub
  next p3 hp3 =>
  injection hp3 with hp3
  split at hpub
  · exact Option.noConfusion hpub
  rw [Option.some.injEq, Prod.mk.injEq] at hpub
  obtain ⟨hp2, hs2⟩ := hpub
  rw [Prod.mk.injEq] at h
  obtain ⟨h1, h2⟩ := h
  injection h1 with h1
  subst hp3
  rw [← hp2] at h1
  rw [← hs2] at h2
  have hdraft : post.status = PostStatus.draft := by
    cases hs : post.status with
    | draft => rfl
    | published => rw [hs] at g2; exact absurd rfl g2
    | archived => rw [hs] at g2; exact absurd rfl g2
  exact ⟨post, slug, hpost, hdraft, hslug, h1.symm, h2.symm⟩

/-- C9: for every successful publish, the update writes only status,
slug, published_at and updated_at; title, content, author_id and
created_at (and the id) are unchanged by the transition. -/
theorem c9_publish_frame (s : Store) (actor : AuthUser) (postId : String) (now : Nat)
    (p1 : Post) (s1 : Store)
    (h : publishRoute s actor postId now = (Except.ok p1, s1)) :
    ∃ p, getPostById s postId = some p
      ∧ p1.id = p.id ∧ p1.title = p.title ∧ p1.content = p.content
      ∧ p1.author_id = p.author_id ∧ p1.created_at = p.created_at
      ∧ p1.status = PostStatus.published ∧ p1.published_at = some now
      ∧ p1.updated_at = now := by
  obtain ⟨post, slug, hpost, _, _, hp1, _⟩ := publishRoute_ok h
  subst hp1
  exact ⟨post, hpost, rfl, rfl, rfl, rfl, rfl, rfl, rfl, rfl⟩

/-- Witness for C9: a concrete successful publish of the fixture draft
keeps title, content, author and creation time. -/
theorem c9_publish_frame_witness :
    publishRoute baseStore editorU "p1" 7
        = ((Except.ok (applyPublish pDraft "hello-world" 7) : Except ApiError Post),
          baseStoreAfterPublish)
    ∧ ∃ p, getPostById baseStore "p1" = some p
      ∧ (applyPublish pDraft "hello-world" 7).id = p.id
      ∧ (applyPublish pDraft "hello-world" 7).title = p.title
      ∧ (applyPublish pDraft "hello-world" 7).content = p.content
      ∧ (applyPublish pDraft "hello-world" 7).author_id = p.author_id
      ∧ (applyPublish pDraft "hello-world" 7).created_at = p.created_at
      ∧ (applyPublish pDraft "hello-world" 7).status = PostStatus.published
      ∧ (applyPublish pDraft "hello-world" 7).published_at = some 7
      ∧ (applyPublish pDraft "hello-world" 7).updated_at = 7 :=
  ⟨by decide, c9_publish_frame baseStore editorU "p1" 7
    (applyPublish pDraft "hello-world" 7) baseStoreAfterPublish (by decide)⟩

/-- Success inversion for the comments listing route: a success always
carries the page built by buildCommentsPage. -/
theorem listCommentsRoute_ok {s : Store} {postId : String} {pp lp : Option Int}
    {sp : Option String} {resp : CommentsPage}
    (h : listCommentsRoute s postId pp lp sp = Except.ok resp) :
    resp = buildCommentsPage s postId (parsePage pp) (parseLimit lp)
      (parseSortNewest sp) := by
  unfold listCommentsRoute at h
  split at h
  · exact Except.noConfusion h
  split at h
  · exact Except.noConfusion h
  injection h with h
  exact h.symm

/-- C7: in the public approved-comment listing, the replies nested
under any returned top-level comment are ordered oldest-first, for
every value of the page, limit and sort parameters. -/
theorem c7_replies_always_oldest_first (s : Store) (postId : String)
    (pp lp : Option Int) (sp : Option String) (resp : CommentsPage)
    (h : listCommentsRoute s postId pp lp sp = Except.ok resp) :
    ∀ pr ∈ resp.data, pr.2.Pairwise (fun a b => a.created_at ≤ b.created_at) := by
  intro pr hpr
  rw [listCommentsRoute_ok h] at hpr
  unfold buildCommentsPage at hpr
  simp only [List.mem_map] at hpr
  obtain ⟨c, _, rfl⟩ := hpr
  exact getApprovedReplies_sorted s postId c.id

/-- Witness for C7: the fixture listing succeeds under the newest sort
and every returned reply list is ordered oldest-first. -/
theorem c7_replies_always_oldest_first_witness :
    listCommentsRoute baseStore "p2" none none (some "newest")
        = Except.ok (buildCommentsPage baseStore "p2" 1 20 true)
    ∧ ∀ pr ∈ (buildCommentsPage baseStore "p2" 1 20 true).data,
        pr.2.Pairwise (fun a b => a.created_at ≤ b.created_at) :=
  ⟨by decide, c7_replies_always_oldest_first baseStore "p2" none none
    (some "newest") (buildCommentsPage baseStore "p2" 1 20 true) (by decide)⟩

/-- C8: in the public approved-comment listing, a post with zero
approved top-level comments reports total_pages equal to zero, for
every page and limit parameter choice. -/
theorem c8_zero_total_zero_pages (s : Store) (postId : String)
    (pp lp : Option Int) (sp : Option String) (resp : CommentsPage)
    (h : listCommentsRoute s postId pp lp sp = Except.ok resp)
    (hzero : countApprovedTopLevelComments s postId = 0) :
    resp.total_pages = 0 ∧ resp.total = 0 := by
  rw [listCommentsRoute_ok h]
  unfold buildCommentsPage
  simp [hzero]

/-- Witness for C8: the fixture post with no comments lists zero pages
with explicit page and limit parameters. -/
theorem c8_zero_total_zero_pages_witness :
    listCommentsRoute baseStore "p3" (some 3) (some 7) none
        = Except.ok (buildCommentsPage baseStore "p3" 3 7 false)
    ∧ countApprovedTopLevelComments baseStore "p3" = 0
    ∧ (buildCommentsPage baseStore "p3" 3 7 false).total_pages = 0
    ∧ (buildCommentsPage baseStore "p3" 3 7 false).total = 0 :=
  ⟨by decide, by decide,
    c8_zero_total_zero_pages baseStore "p3" (some 3) (some 7) none
      (buildCommentsPage baseStore "p3" 3 7 false) (by decide) (by decide)⟩

/-- The moderation route rejects an invalid target body with a 400
before any lookup, independent of store, comment id and actor. -/
theorem moderate_invalid_target (s : Store) (actor : AuthUser) (commentId : String)
    (body : Option String) (now : Nat) (hbad : validTargetBody body = false) :
    isBadRequestResult (moderateRoute s actor commentId body now).1 = true := by
  cases body with
  | none => rfl
  | some st =>
    have hcontains : validModerationStatuses.contains st = false := by
      simpa [validTargetBody] using hbad
    simp only [moderateRoute]
    by_cases hempty : (st == "") = true
    · rw [if_pos hempty]
      rfl
    · rw [if_neg hempty, hcontains]
      rfl

/-- A 400 result is not a success. -/
theorem isOkResult_eq_false_of_badRequest {α : Type} {r : Except ApiError α}
    (h : isBadRequestResult r = true) : isOkResult r = false := by
  cases r with
  | ok a => simp [isBadRequestResult] at h
  | error e => rfl

/-- The role gate of the publish route passes editors and admins. -/
theorem publish_role_gate_pass (actor : AuthUser)
    (hrole : actor.role = Role.editor ∨ actor.role = Role.admin) :
    (!(hasRole actor [Role.editor, Role.admin])) = false := by
  rcases hrole with h | h <;> simp only [hasRole, h] <;> decide

/-- An editor or admin publishing a missing post id gets the 404. -/
theorem publish_notFound_of_missing (s : Store) (actor : AuthUser)
    (postId : String) (now : Nat)
    (hrole : actor.role = Role.editor ∨ actor.role = Role.admin)
    (hnone : getPostById s postId = none) :
    (publishRoute s actor postId now).1
      = Except.error (ApiError.notFound "Post not found") := by
  simp [publishRoute, publish_role_gate_pass actor hrole, hnone]

/-- An editor or admin publishing a non-draft post gets the 409,
whatever the ownership and the remaining inputs. -/
theorem publish_conflict_of_not_draft (s : Store) (actor : AuthUser)
    (postId : String) (now : Nat) (post : Post)
    (hrole : actor.role = Role.editor ∨ actor.role = Role.admin)
    (hsome : getPostById s postId = some post)
    (hnd : post.status ≠ PostStatus.draft) :
    (publishRoute s actor postId now).1
      = Except.error (ApiError.conflict "Post is not in draft status") := by
  have hb : (post.status != PostStatus.draft) = true := by
    cases hs : post.status with
    | draft => exact absurd hs hnd
    | published => rfl
    | archived => rfl
  simp [publishRoute, publish_role_gate_pass actor hrole, hsome, hb]

/-- A viewer hits the role gate of the publish route. -/
theorem publish_forbidden_of_viewer (s : Store) (actor : AuthUser)
    (postId : String) (now : Nat) (hrole : actor.role = Role.viewer) :
    (publishRoute s actor postId now).1
      = Except.error (ApiError.forbidden "Only editors and admins can publish posts") := by
  have hgate : (!(hasRole actor [Role.editor, Role.admin])) = true := by
    simp only [hasRole, hrole]
    decide
  simp [publishRoute, hgate]

/-- A moderation request with a valid target against a comment that is
no longer pending gets the 409, before any role or ownership check. -/
theorem moderate_conflict_of_moderated (s : Store) (actor : AuthUser)
    (commentId st : String) (now : Nat) (c : Comment)
    (hv : validTargetBody (some st) = true)
    (hc : getCommentById s commentId = some c)
    (hmod : c.status ≠ CommentStatus.pending) :
    (moderateRoute s actor commentId (some st) now).1
      = Except.error (ApiError.conflict "Comment already moderated") := by
  have hst3 : st = "approved" ∨ st = "rejected" ∨ st = "spam" := by
    simpa [validTargetBody, validModerationStatuses] using hv
  have hne : (st == "") = false := by
    rcases hst3 with rfl | rfl | rfl <;> rfl
  have hcont : (!(validModerationStatuses.contains st)) = false := by
    rcases hst3 with rfl | rfl | rfl <;> rfl
  have hb : (c.status != CommentStatus.pending) = true := by
    cases hs : c.status with
    | pending => exact absurd hs hmod
    | approved => rfl
    | rejected => rfl
    | spam => rfl
  simp only [moderateRoute, hne, hcont]
  rw [hc]
  simp [hb]

/-- C10: the moderation route validates the requested target status
against the enum before looking the comment up, so a missing or
out-of-enum target yields ValidationFailed for every store, every
comment id (existing or not) and every actor role. -/
theorem c10_target_validated_before_lookup (s : Store) (actor : AuthUser)
    (commentId : String) (body : Option String) (now : Nat)
    (hbad : validTargetBody body = false) :
    isBadRequestResult (moderateRoute s actor commentId body now).1 = true :=
  moderate_invalid_target s actor commentId body now hbad

/-- Witness for C10: a nonsense target from a viewer against a comment
id that does not exist still yields ValidationFailed. -/
theorem c10_target_validated_before_lookup_witness :
    validTargetBody (some "bogus") = false
    ∧ getCommentById baseStore "ghost" = none
    ∧ viewerU.role = Role.viewer
    ∧ isBadRequestResult
        (moderateRoute baseStore viewerU "ghost" (some "bogus") 0).1 = true :=
  ⟨by decide, by decide, by decide,
    c10_target_validated_before_lookup baseStore viewerU "ghost" (some "bogus") 0
      (by decide)⟩

/-- Success inversion for the moderation route: a successful moderation
validated the target, found a pending comment, and wrote exactly the
moderateComment update. -/
theorem moderateRoute_ok {s : Store} {actor : AuthUser} {commentId : String}
    {body : Option String} {now : Nat} {c1 : Comment} {s1 : Store}
    (h : moderateRoute s actor commentId body now = (Except.ok c1, s1)) :
    ∃ st c, body = some st
      ∧ validModerationStatuses.contains st = true
      ∧ getCommentById s commentId = some c
      ∧ c.status = CommentStatus.pending
      ∧ c1 = applyModerate c (targetStatus st) now := by
  cases body with
  | none => exact (err_ne_ok h).elim
  | some st =>
  simp only [moderateRoute] at h
  split at h
  · exact (err_ne_ok h).elim
  next hempty =>
  split at h
  · exact (err_ne_ok h).elim
  next hcontains =>
  split at h
  · exact (err_ne_ok h).elim
  next c hc =>
  split at h
  · exact (err_ne_ok h).elim
  next hpending =>
  split at h
  · exact (err_ne_ok h).elim
  next post hpost =>
  split at h
  · exact (err_ne_ok h).elim
  split at h
  · exact (err_ne_ok h).elim
  split at h
  · exact (err_ne_ok h).elim
  next c2 s2 hmod =>
  unfold moderateComment at hmod
  rw [hc] at hmod
  rw [Option.some.injEq, Prod.mk.injEq] at hmod
  obtain ⟨hc2, hs2⟩ := hmod
  rw [Prod.mk.injEq] at h
  obtain ⟨h1, h2⟩ := h
  injection h1 with h1
  have hcont : validModerationStatuses.contains st = true := by
    cases hb : validModerationStatuses.contains st with
    | true => rfl
    | false => rw [hb] at hcontains; exact absurd rfl hcontains
  have hpend : c.status = CommentStatus.pending := by
    cases hs : c.status with
    | pending => rfl
    | approved => rw [hs] at hpending; exact absurd rfl hpending
    | rejected => rw [hs] at hpending; exact absurd rfl hpending
    | spam => rw [hs] at hpending; exact absurd rfl hpending
  exact ⟨st, c, rfl, hcont, hc, hpend, by rw [← h1, ← hc2]⟩

/-- C6: for every successful moderation of a comment whose approved_at
was unset (as every pending comment the system creates), the resulting
approved_at is set if and only if the terminal state is approved:
approving stamps the moderation time, rejecting or marking spam leaves
approved_at unset. -/
theorem c6_approved_at_iff_approved (s : Store) (actor : AuthUser)
    (commentId : String) (body : Option String) (now : Nat) (c1 : Comment) (s1 : Store)
    (h : moderateRoute s actor commentId body now = (Except.ok c1, s1))
    (hinit : ∀ c, getCommentById s commentId = some c → c.approved_at = none) :
    (c1.approved_at ≠ none ↔ c1.status = CommentStatus.approved)
    ∧ (body = some "approved" →
        c1.status = CommentStatus.approved ∧ c1.approved_at = some now)
    ∧ (∀ st, body = some st → st ≠ "approved" →
        c1.status ≠ CommentStatus.approved ∧ c1.approved_at = none) := by
  obtain ⟨st, c, hbody, hcont, hc, _, hc1⟩ := moderateRoute_ok h
  have happ : c.approved_at = none := hinit c hc
  subst hbody
  by_cases hst : (st == "approved") = true
  · have hsteq : st = "approved" := by
      simpa using hst
    subst hsteq
    have hc1eq : c1 = { c with status := CommentStatus.approved, approved_at := some now } := by
      rw [hc1]
      rfl
    subst hc1eq
    refine ⟨by simp, fun _ => ⟨rfl, rfl⟩, fun st2 hst2 hne => ?_⟩
    injection hst2 with hst2
    exact absurd hst2.symm hne
  · have hc1eq : c1 = { c with status := targetStatus st } := by
      rw [hc1]
      unfold applyModerate
      have : (targetStatus st == CommentStatus.approved) = false := by
        unfold targetStatus
        rw [if_neg hst]
        by_cases hr : (st == "rejected") = true
        · rw [if_pos hr]
          rfl
        · rw [if_neg hr]
          rfl
      rw [this]
      rfl
    have hne : targetStatus st ≠ CommentStatus.approved := by
      unfold targetStatus
      rw [if_neg hst]
      by_cases hr : (st == "rejected") = true
      · rw [if_pos hr]
        exact fun hh => CommentStatus.noConfusion hh
      · rw [if_neg hr]
        exact fun hh => CommentStatus.noConfusion hh
    subst hc1eq
    refine ⟨?_, ?_, ?_⟩
    · constructor
      · intro hcontr
        exact absurd happ (by simpa using hcontr)
      · intro hcontr
        exact absurd hcontr hne
    · intro hap
      injection hap with hap
      rw [hap] at hst
      exact absurd rfl hst
    · intro st2 hst2 _
      injection hst2 with hst2
      subst hst2
      exact ⟨hne, happ⟩

/-- Witness for C6: approving the fixture pending comment stamps
approved_at with the moderation time. -/
theorem c6_approved_at_iff_approved_witness :
    moderateRoute baseStore adminU uuidC3 (some "approved") 40
        = ((Except.ok cApprovedNow : Except ApiError Comment), baseStoreAfterApprove)
    ∧ (cApprovedNow.approved_at ≠ none ↔ cApprovedNow.status = CommentStatus.approved)
    ∧ cApprovedNow.status = CommentStatus.approved
    ∧ cApprovedNow.approved_at = some 40 :=
  by
  have happ : ∀ c, getCommentById baseStore uuidC3 = some c → c.approved_at = none := by
    intro c hc
    rw [show getCommentById baseStore uuidC3 = some cPending from by decide] at hc
    injection hc with h2
    rw [← h2]
    rfl
  have main := c6_approved_at_iff_approved baseStore adminU uuidC3 (some "approved") 40
    cApprovedNow baseStoreAfterApprove (by decide) happ
  exact ⟨by decide, main.1, main.2.1 rfl⟩

/-- C4 (amended): for every editor or admin request, the publish
preconditions are checked in the order existence, draft-status,
ownership, content length, category presence, slug resolution, first
failure wins: a non-existent post id yields NotFound even if other
inputs are invalid, and an already-published post yields Conflict
whether the actor is admin, the owning editor or another editor.  A
viewer request is rejected Forbidden at the role gate before the
existence check. -/
theorem c4_precondition_order_amended (s : Store) (actor : AuthUser)
    (postId : String) (now : Nat) :
    ((actor.role = Role.editor ∨ actor.role = Role.admin) →
      (getPostById s postId = none →
        (publishRoute s actor postId now).1
          = Except.error (ApiError.notFound "Post not found"))
      ∧ (∀ post, getPostById s postId = some post → post.status ≠ PostStatus.draft →
        (publishRoute s actor postId now).1
          = Except.error (ApiError.conflict "Post is not in draft status")))
    ∧ (actor.role = Role.viewer →
      (publishRoute s actor postId now).1
        = Except.error (ApiError.forbidden "Only editors and admins can publish posts")) :=
  ⟨fun hrole =>
    ⟨fun hnone => publish_notFound_of_missing s actor postId now hrole hnone,
     fun post hsome hnd =>
       publish_conflict_of_not_draft s actor postId now post hrole hsome hnd⟩,
   fun hrole => publish_forbidden_of_viewer s actor postId now hrole⟩

/-- Counterexample to C4 as stated: a viewer publishing a non-existent
post id gets Forbidden from the role gate, not the claimed NotFound,
so the checks do not start at existence for every request. -/
theorem c4_counterexample :
    getPostById baseStore "ghost" = none
    ∧ (publishRoute baseStore viewerU "ghost" 0).1
        = Except.error (ApiError.forbidden "Only editors and admins can publish posts")
    ∧ isNotFoundResult (publishRoute baseStore viewerU "ghost" 0).1 = false := by
  decide

/-- Witness for C4 (amended): concrete editor requests hit NotFound on
a missing id and Conflict on a published post even for a non-owner
editor; a concrete viewer request hits the role gate. -/
theorem c4_precondition_order_amended_witness :
    getPostById baseStore "ghost" = none
    ∧ (publishRoute baseStore editorU "ghost" 0).1
        = Except.error (ApiError.notFound "Post not found")
    ∧ getPostById baseStore "p2" = some pPub
    ∧ pPub.status ≠ PostStatus.draft
    ∧ (publishRoute baseStore editor2U "p2" 0).1
        = Except.error (ApiError.conflict "Post is not in draft status")
    ∧ (publishRoute baseStore viewerU "p2" 0).1
        = Except.error (ApiError.forbidden "Only editors and admins can publish posts") := by
  refine ⟨by decide, ?_, by decide, by decide, ?_, ?_⟩
  · exact ((c4_precondition_order_amended baseStore editorU "ghost" 0).1
      (Or.inl rfl)).1 (by decide)
  · exact ((c4_precondition_order_amended baseStore editor2U "p2" 0).1
      (Or.inl rfl)).2 pPub (by decide) (by decide)
  · exact (c4_precondition_order_amended baseStore viewerU "p2" 0).2 rfl

/-- C5 (amended): transitions are one-way.  Publishing a published
post yields Conflict for every editor or admin, and moderating a
moderated comment with a valid target yields Conflict for every actor;
neither operation ever succeeds a second time on the same entity, for
any role and any body. -/
theorem c5_one_way_amended (s : Store) (actor : AuthUser)
    (postId commentId : String) (body : Option String) (now : Nat)
    (post : Post) (c : Comment)
    (hpost : getPostById s postId = some post)
    (hpub : post.status = PostStatus.published)
    (hc : getCommentById s commentId = some c)
    (hmod : c.status ≠ CommentStatus.pending) :
    ((actor.role = Role.editor ∨ actor.role = Role.admin) →
      (publishRoute s actor postId now).1
        = Except.error (ApiError.conflict "Post is not in draft status"))
    ∧ (validTargetBody body = true →
      (moderateRoute s actor commentId body now).1
        = Except.error (ApiError.conflict "Comment already moderated"))
    ∧ isOkResult (publishRoute s actor postId now).1 = false
    ∧ isOkResult (moderateRoute s actor commentId body now).1 = false := by
  have hnd : post.status ≠ PostStatus.draft := by
    rw [hpub]
    exact fun hh => PostStatus.noConfusion hh
  have hpubconf : (actor.role = Role.editor ∨ actor.role = Role.admin) →
      (publishRoute s actor postId now).1
        = Except.error (ApiError.conflict "Post is not in draft status") :=
    fun hrole => publish_conflict_of_not_draft s actor postId now post hrole hpost hnd
  have hmodconf : validTargetBody body = true →
      (moderateRoute s actor commentId body now).1
        = Except.error (ApiError.conflict "Comment already moderated") := by
    intro hv
    cases body with
    | none => exact absurd hv (by simp [validTargetBody])
    | some st => exact moderate_conflict_of_moderated s actor commentId st now c hv hc hmod
  refine ⟨hpubconf, hmodconf, ?_, ?_⟩
  · cases hr : actor.role with
    | admin =>
      rw [hpubconf (Or.inr hr)]
      rfl
    | editor =>
      rw [hpubconf (Or.inl hr)]
      rfl
    | viewer =>
      rw [publish_forbidden_of_viewer s actor postId now hr]
      rfl
  · by_cases hv : validTargetBody body = true
    · rw [hmodconf hv]
      rfl
    · exact isOkResult_eq_false_of_badRequest
        (moderate_invalid_target s actor commentId body now
          (by cases hb : validTargetBody body with
            | true => exact absurd hb hv
            | false => rfl))

/-- Counterexample to C5 as stated: a viewer making a further publish
attempt on a published post gets Forbidden, not the claimed Conflict. -/
theorem c5_counterexample :
    pPub.status = PostStatus.published
    ∧ (publishRoute baseStore viewerU "p2" 1).1
        = Except.error (ApiError.forbidden "Only editors and admins can publish posts")
    ∧ isConflictResult (publishRoute baseStore viewerU "p2" 1).1 = false := by
  decide

/-- Witness for C5 (amended): a concrete second publish and a concrete
second moderation both yield Conflict and neither succeeds. -/
theorem c5_one_way_amended_witness :
    getPostById baseStore "p2" = some pPub
    ∧ pPub.status = PostStatus.published
    ∧ getCommentById baseStore uuidC4 = some cRejected
    ∧ cRejected.status ≠ CommentStatus.pending
    ∧ (publishRoute baseStore adminU "p2" 0).1
        = Except.error (ApiError.conflict "Post is not in draft status")
    ∧ (moderateRoute baseStore adminU uuidC4 (some "spam") 0).1
        = Except.error (ApiError.conflict "Comment already moderated")
    ∧ isOkResult (publishRoute baseStore adminU "p2" 0).1 = false
    ∧ isOkResult (moderateRoute baseStore adminU uuidC4 (some "spam") 0).1 = false := by
  have main := c5_one_way_amended baseStore adminU "p2" uuidC4 (some "spam") 0
    pPub cRejected (by decide) (by decide) (by decide) (by decide)
  exact ⟨by decide, by decide, by decide, by decide,
    main.1 (Or.inr rfl), main.2.1 (by decide), main.2.2.1, main.2.2.2⟩

/-- C2 (amended): for every comment submission carrying a non-empty,
well-formed parent_comment_id, with valid content and a published
target post, the submission succeeds exactly when the parent id
references an approved comment on the same post — whether or not that
parent is itself top-level — and fails with NotFound otherwise.  The
one-level reply cap is not enforced at submission. -/
theorem c2_parent_rule_amended (s : Store) (actor : AuthUser) (postId : String)
    (content : Option String) (pid newId : String) (now : Nat) (post : Post)
    (hpid : pid ≠ "")
    (hcontent : (validateCommentContent content).valid = true)
    (hformat : (validateParentCommentId (some pid)).valid = true)
    (hpost : getPublishedPost s postId = some post)
    (hpub : post.status = PostStatus.published) :
    (∀ parent, getApprovedComment s pid postId = some parent →
        parent.status = CommentStatus.approved →
        submitCommentRoute s actor postId content (some pid) newId now
          = (Except.ok (mkPendingComment actor postId content (some pid) newId now),
            { s with comments := s.comments
                ++ [mkPendingComment actor postId content (some pid) newId now] }))
    ∧ (∀ parent, getApprovedComment s pid postId = some parent →
        parent.status ≠ CommentStatus.approved →
        submitCommentRoute s actor postId content (some pid) newId now
          = (Except.error (ApiError.notFound "Parent comment not found"), s))
    ∧ (getApprovedComment s pid postId = none →
        submitCommentRoute s actor postId content (some pid) newId now
          = (Except.error (ApiError.notFound "Parent comment not found"), s)) := by
  have h1 : ((validateCommentContent content).valid == false) = false := by
    rw [hcontent]
    rfl
  have h2 : ((validateParentCommentId (some pid)).valid == false) = false := by
    rw [hformat]
    rfl
  have hstat : (post.status != PostStatus.published) = false := by
    rw [hpub]
    rfl
  have hne : (pid == "") = false := beq_eq_false_iff_ne.mpr hpid
  have htruthy : truthyParent (some pid) = some pid := by
    simp [truthyParent, hne]
  refine ⟨?_, ?_, ?_⟩
  · intro parent hpar happ
    have hb : (parent.status != CommentStatus.approved) = false := by
      rw [happ]
      rfl
    simp [submitCommentRoute, h1, h2, hpost, hstat, htruthy, hpar, hb]
  · intro parent hpar hnapp
    have hb : (parent.status != CommentStatus.approved) = true := by
      cases hs : parent.status with
      | approved => exact absurd hs hnapp
      | pending => rfl
      | rejected => rfl
      | spam => rfl
    simp [submitCommentRoute, h1, h2, hpost, hstat, htruthy, hpar, hb]
  · intro hnone
    simp [submitCommentRoute, h1, h2, hpost, hstat, htruthy, hnone]

/-- Counterexample to C2 as stated: submitting a reply whose parent is
itself an approved reply (not top-level) succeeds, where the claim
demands NotFound; a reply can therefore receive a reply. -/
theorem c2_counterexample :
    getApprovedComment baseStore uuidC2 "p2" = some cReply
    ∧ cReply.status = CommentStatus.approved
    ∧ cReply.parent_comment_id = some uuidC1
    ∧ (submitCommentRoute baseStore viewerU "p2" (some "hi") (some uuidC2) "newc" 30).1
        = Except.ok (mkPendingComment viewerU "p2" (some "hi") (some uuidC2) "newc" 30)
    ∧ isNotFoundResult
        (submitCommentRoute baseStore viewerU "p2" (some "hi") (some uuidC2) "newc" 30).1
        = false := by
  decide

/-- Witness for C2 (amended): a concrete reply to an approved top-level
comment is accepted and stored pending. -/
theorem c2_parent_rule_amended_witness :
    getApprovedComment baseStore uuidC1 "p2" = some cApproved
    ∧ cApproved.status = CommentStatus.approved
    ∧ submitCommentRoute baseStore viewerU "p2" (some "hi") (some uuidC1) "newc2" 31
        = (Except.ok (mkPendingComment viewerU "p2" (some "hi") (some uuidC1) "newc2" 31),
          c2StoreAfterReply) := by
  have main := c2_parent_rule_amended baseStore viewerU "p2" (some "hi") uuidC1
    "newc2" 31 pPub (by decide) (by decide) (by decide) (by decide) (by decide)
  exact ⟨by decide, by decide, main.1 cApproved (by decide) (by decide)⟩

/-- C3 (amended): post creation commits no partial state on the
invalid-reference path — a supplied category id that references no
existing category fails the whole creation with invalid-reference
before any insert, leaving the store untouched — but a category
link-insert that errors at the storage layer after the post insert is
tolerated: the creation is still reported as successful, with the post
present, the supplied category_ids echoed back, and the link rows
missing. -/
theorem c3_no_partial_state_amended (s : Store) (actor : AuthUser)
    (title content : Option String) (catIds : List String)
    (tag_ids : Option (List String)) (newId : String) (now : Nat) (cf tf : Bool)
    (hrole : actor.role = Role.editor ∨ actor.role = Role.admin)
    (htitle : (validateTitle title).valid = true)
    (hcontent : (validateContent content).valid = true)
    (hformat : (validateOptionalCategories (some catIds)).valid = true) :
    (referencesMissing (s.categories.map (fun c => c.id)) (some catIds) = true →
      createPostRoute s actor title content (some catIds) tag_ids newId now cf tf
        = (Except.error (ApiError.badRequest
            "One or more category_ids reference non-existent categories"), s))
    ∧ (referencesMissing (s.categories.map (fun c => c.id)) (some catIds) = false →
      createPostRoute s actor title content (some catIds) none newId now true tf
        = (Except.ok (mkDraftPost actor title content newId now, catIds, []),
          { s with posts := s.posts ++ [mkDraftPost actor title content newId now] })) := by
  have hgate := publish_role_gate_pass actor hrole
  have h1 : ((validateTitle title).valid == false) = false := by
    rw [htitle]
    rfl
  have h2 : ((validateContent content).valid == false) = false := by
    rw [hcontent]
    rfl
  have h3 : ((validateOptionalCategories (some catIds)).valid == false) = false := by
    rw [hformat]
    rfl
  constructor
  · intro hmiss
    simp [createPostRoute, hgate, h1, h2, h3, hmiss]
  · intro hmiss
    have htagvalid : ((validateTagIds none).valid == false) = false := rfl
    have htagmiss : referencesMissing (s.tags.map (fun t => t.id)) none = false := rfl
    simp [createPostRoute, hgate, h1, h2, h3, hmiss, htagvalid, htagmiss,
      applyCategoryLinks, applyTagLinks]

/-- Counterexample to C3 as stated: with an existing category id, a
failed category link insert after the post insert is swallowed, the
creation is reported as successful with the category ids echoed, and
the stored post has no category links — an orphaned post reported as
created. -/
theorem c3_counterexample :
    (baseStore.categories.map (fun c => c.id)) = [catUuid]
    ∧ isOkResult (createPostRoute baseStore editorU (some "My New Post")
        (some "Body text") (some [catUuid]) none "pnew" 5 true false).1 = true
    ∧ ((createPostRoute baseStore editorU (some "My New Post")
        (some "Body text") (some [catUuid]) none "pnew" 5 true false).2.post_categories.filter
          (fun l => l.1 == "pnew")) = []
    ∧ (createPostRoute baseStore editorU (some "My New Post")
        (some "Body text") (some [catUuid]) none "pnew" 5 true false).2.posts.any
          (fun p => p.id == "pnew") = true
    ∧ (match (createPostRoute baseStore editorU (some "My New Post")
        (some "Body text") (some [catUuid]) none "pnew" 5 true false).1 with
        | Except.ok (_, cids, _) => cids
        | Except.error _ => []) = [catUuid] := by
  decide

/-- Witness for C3 (amended): a concrete bad category id fails the
creation atomically, and a concrete link-insert failure still reports
the creation as successful with no link rows written. -/
theorem c3_no_partial_state_amended_witness :
    referencesMissing (baseStore.categories.map (fun c => c.id)) (some [badCatUuid]) = true
    ∧ createPostRoute baseStore editorU (some "My New Post") (some "Body text")
        (some [badCatUuid]) none "pnew2" 6 true false
        = (Except.error (ApiError.badRequest
            "One or more category_ids reference non-existent categories"), baseStore)
    ∧ referencesMissing (baseStore.categories.map (fun c => c.id)) (some [catUuid]) = false
    ∧ createPostRoute baseStore editorU (some "My New Post") (some "Body text")
        (some [catUuid]) none "pnew2" 6 true false
        = (Except.ok (mkDraftPost editorU (some "My New Post") (some "Body text") "pnew2" 6,
            [catUuid], []),
          c3StoreAfterCreate) := by
  have main1 := c3_no_partial_state_amended baseStore editorU (some "My New Post")
    (some "Body text") [badCatUuid] none "pnew2" 6 true false
    (Or.inl rfl) (by decide) (by decide) (by decide)
  have main2 := c3_no_partial_state_amended baseStore editorU (some "My New Post")
    (some "Body text") [catUuid] none "pnew2" 6 true false
    (Or.inl rfl) (by decide) (by decide) (by decide)
  exact ⟨by decide, main1.1 (by decide), by decide, main2.2 (by decide)⟩

/-- C1: the slug-resolution claim is broken by the code at a reachable
state.  In slugStore the draft p1 and the published p2 both hold the
base slug hello-world, which the partial unique index permits.  The
claim says the base attempt must fail (another published post holds the
slug) and resolution must move to hello-world-1.  Instead the
getPostBySlug .single() call sees two rows, errors with PGRST116, is
read by the route as slug available, so the loop exits at the base slug
with slugTaken false; the update then violates posts_slug_unique and
the publish returns a 500 instead of the resolved hello-world-1. -/
theorem c1_slug_collision_code_bug :
    slugStore.posts.any (fun p => p.id != "p1"
        && p.status == PostStatus.published && p.slug == "hello-world") = true
    ∧ slugify "Hello World" = "hello-world"
    ∧ getPostBySlug slugStore "hello-world" = none
    ∧ (slugStore.posts.filter (fun p => p.slug == "hello-world")).length = 2
    ∧ slugTaken slugStore "p1" "hello-world" = false
    ∧ resolveSlug slugStore "p1" "hello-world" = some "hello-world"
    ∧ slugTaken slugStore "p1" "hello-world-1" = false
    ∧ publishRoute slugStore adminU "p1" 7
        = ((Except.error (ApiError.serverError "Failed to publish post")
            : Except ApiError Post), slugStore) := by
  decide

end Microblog
